import Mathlib

/-!
Verification of the intent resolution and dispatch engine of the Pluto
voice-assistant repository (src/app.py, src/command.py).

The Python code is shallowly embedded: its pure string manipulation is
modelled over `List Char` with primitives mirroring Python's `str.lower`,
`str.strip`, `str.replace(w, "")` and the `in` containment test; the
model invocation (`subprocess.run ollama`) is abstracted by a
`ModelOutcome` parameter carrying the captured stdout or the failure
mode; `json.loads` is modelled by a recursive-descent parser for the
JSON fragment the engine exchanges (objects, strings, integer numerals,
booleans, null; arrays and fractional numbers are outside the modelled
fragment and parse as failures, which the classifier treats like any
other malformed output).  All definitions are executable.
-/

namespace PlutoAI

/-- Python whitespace for `str.strip` (space, tab, newline, carriage
return, vertical tab, form feed). -/
def isPyWs (c : Char) : Bool :=
  c == ' ' || c == '\t' || c == '\n' || c == '\r' || c.toNat == 11 || c.toNat == 12

/-- ASCII lowering of one character, as Python's `str.lower` acts on the
ASCII inputs this engine receives. -/
def lowerChar (c : Char) : Char :=
  if 'A' ≤ c && c ≤ 'Z' then Char.ofNat (c.toNat + 32) else c

/-- Python `str.lower` on the character list of a string. -/
def pyLower (s : List Char) : List Char := s.map lowerChar

/-- Python `str.strip()`: drop leading and trailing whitespace. -/
def pyStrip (s : List Char) : List Char :=
  ((s.dropWhile isPyWs).reverse.dropWhile isPyWs).reverse

/-- Python's substring containment test `needle in haystack`. -/
def pyContains (needle : List Char) : List Char → Bool
  | [] => needle.isEmpty
  | c :: rest => needle.isPrefixOf (c :: rest) || pyContains needle rest

/-- Worker for `pyRemove`, structurally recursive on a fuel argument so
that it reduces inside the kernel; every step consumes at least one
character, so fuel equal to the input length is always sufficient. -/
def pyRemoveF (old : List Char) : Nat → List Char → List Char
  | _, [] => []
  | 0, s => s
  | fuel + 1, c :: rest =>
    if !old.isEmpty && old.isPrefixOf (c :: rest) then
      pyRemoveF old fuel (List.drop old.length (c :: rest))
    else
      c :: pyRemoveF old fuel rest

/-- Python `s.replace(old, "")` for a non-empty `old`: remove all
non-overlapping occurrences, scanning left to right. -/
def pyRemove (old : List Char) (s : List Char) : List Char :=
  pyRemoveF old s.length s

/-- One step of the fallback classifier's query-cleaning loops:
`query = query.replace(word, "").strip()`. -/
def removeStrip (s : List Char) (w : String) : List Char :=
  pyStrip (pyRemove w.toList s)

/-- The fallback classifier's cleaning loops applied over a word list. -/
def removeAll (s : List Char) (ws : List String) : List Char :=
  ws.foldl removeStrip s

/-- The structured intent produced by the deterministic fallback
classifier: a tool name and a parameter dictionary of string values. -/
structure Intent where
  tool : String
  params : List (String × String)
deriving DecidableEq

/-- Does any word of the list occur in the (already lowered) text, as in
`any(word in text_lower for word in [...])`. -/
def anyWord (tl : List Char) (ws : List String) : Bool :=
  ws.any (fun w => pyContains w.toList tl)

/-- Media keywords of the fallback classifier's first rule. -/
def mediaWords : List String := ["play", "kelu", "pottu"]

/-- Clipboard keywords of the second rule. -/
def clipboardWords : List String := ["copy", "paste", "clipboard"]

/-- System-control keywords of the third rule. -/
def systemWords : List String :=
  ["shutdown", "shut down", "power off", "turn off",
   "restart", "reboot", "reset", "reopen",
   "sleep", "suspend", "hibernate",
   "logout", "log out", "sign out", "lock"]

/-- Opening keywords of the fourth rule. -/
def openWords : List String :=
  ["open", "launch", "start", "run", "thorakku", "thoraku", "pannu", "podu"]

/-- Closing keywords of the fifth rule. -/
def closeWords : List String :=
  ["close", "quit", "exit", "stop", "muddu", "mudu"]

/-- Search keywords of the sixth rule. -/
def searchWords : List String :=
  ["search", "find", "lookup", "thedi", "google"]

/-- Embedding of `handle_fallback` (src/command.py, lines 588-685): the
deterministic keyword fallback classifier, rules evaluated in source
order, first match wins. -/
def handle_fallback (text : String) : Intent :=
  let tl := pyLower text.toList
  if anyWord tl mediaWords then
    let platform :=
      if pyContains ("spotify".toList) tl then "spotify"
      else if pyContains ("soundcloud".toList) tl then "soundcloud"
      else "youtube"
    let query := removeAll tl ["play", "kelu", "pottu", "on", "in", "la", platform]
    ⟨"play_media", [("query", String.mk query), ("platform", platform)]⟩
  else if anyWord tl clipboardWords then
    let action :=
      if pyContains ("paste".toList) tl && !(pyContains ("copy".toList) tl) then "paste"
      else if pyContains ("copy".toList) tl && !(pyContains ("paste".toList) tl) then "copy"
      else "copy_paste"
    let target :=
      if pyContains ("vscode".toList) tl || pyContains ("vs code".toList) tl then "vscode"
      else if pyContains ("notepad++".toList) tl then "notepadplusplus"
      else "notepad"
    ⟨"clipboard_action", [("action", action), ("target_app", target)]⟩
  else if anyWord tl systemWords then
    let action :=
      if anyWord tl ["shutdown", "shut down", "power off", "turn off"] then "shutdown"
      else if anyWord tl ["restart", "reboot", "reset"] then "restart"
      else if anyWord tl ["sleep", "suspend"] then "sleep"
      else if anyWord tl ["hibernate"] then "hibernate"
      else if anyWord tl ["logout", "log out", "sign out"] then "logout"
      else if anyWord tl ["lock"] then "lock"
      else "shutdown"
    ⟨"system_control", [("action", action)]⟩
  else if anyWord tl openWords then
    let appName :=
      removeAll (removeAll tl openWords)
        ["the", "app", "application", "please", "computer", "system"]
    ⟨"open_app", [("app_name", String.mk appName)]⟩
  else if anyWord tl closeWords then
    ⟨"close_app", [("app_name", String.mk (removeAll tl closeWords))]⟩
  else if anyWord tl searchWords then
    let query := removeAll tl
      ["search for", "search", "find", "lookup", "thedi", "google", "on google", "in google"]
    ⟨"search_web", [("query", String.mk query)]⟩
  else
    ⟨"general_chat", [("query", text)]⟩

/-- The tool registry's key set (`TOOLS` in src/command.py, lines 974-982). -/
def TOOLS : List String :=
  ["open_app", "close_app", "search_web", "system_control",
   "play_media", "clipboard_action", "general_chat"]

/-- The parameters each tool handler requires, read off the handler
signatures in src/command.py (every parameter without a default except
the injected `lang`). -/
def requiredParams (tool : String) : List String :=
  if tool == "open_app" then ["app_name"]
  else if tool == "close_app" then ["app_name"]
  else if tool == "search_web" then ["query"]
  else if tool == "system_control" then ["action"]
  else if tool == "play_media" then ["query", "platform"]
  else if tool == "clipboard_action" then ["action", "target_app"]
  else if tool == "general_chat" then ["query"]
  else []

/-- The opening curly brace character. -/
def lbrace : Char := Char.ofNat 123

/-- The closing curly brace character. -/
def rbrace : Char := Char.ofNat 125

/-- JSON values in the fragment exchanged by the engine (no arrays, no
fractional numbers; see the header comment). -/
inductive JVal where
  | jnull
  | jbool (b : Bool)
  | jnum (n : Int)
  | jstr (s : String)
  | jobj (fields : List (String × JVal))

/-- Lookup in a parsed JSON object; the last occurrence of a key wins,
as it does when Python's `json.loads` builds a `dict`. -/
def jLookup (fields : List (String × JVal)) (k : String) : Option JVal :=
  match fields with
  | [] => none
  | (k2, v) :: rest =>
    match jLookup rest k with
    | some r => some r
    | none => if k2 == k then some v else none

/-- JSON inter-token whitespace. -/
def jWs (c : Char) : Bool :=
  c == ' ' || c == '\t' || c == '\n' || c == '\r'

/-- Skip JSON inter-token whitespace. -/
def jskipWs (s : List Char) : List Char := s.dropWhile jWs

/-- Value of one hexadecimal digit, by code point. -/
def hexVal (c : Char) : Option Nat :=
  let n := c.toNat
  if 48 ≤ n ∧ n ≤ 57 then some (n - 48)
  else if 97 ≤ n ∧ n ≤ 102 then some (n - 87)
  else if 65 ≤ n ∧ n ≤ 70 then some (n - 55)
  else none

/-- Single-character JSON string escapes other than `\u`, as a lookup
table from escape letter to decoded character. -/
def jEsc (c : Char) : Option Char :=
  List.lookup c
    [('"', '"'), ('\\', '\\'), ('/', '/'), ('n', '\n'), ('t', '\t'),
     ('r', '\r'), ('b', Char.ofNat 8), ('f', Char.ofNat 12)]

/-- Parse the body of a JSON string after the opening quote; returns the
decoded characters and the remainder after the closing quote. -/
def parseStringBody : List Char → Option (List Char × List Char)
  | [] => none
  | c :: rest =>
    if c == '"' then some ([], rest)
    else if c == '\\' then
      match rest with
      | [] => none
      | 'u' :: h1 :: h2 :: h3 :: h4 :: r3 =>
        match hexVal h1, hexVal h2, hexVal h3, hexVal h4 with
        | some a, some b, some c2, some d =>
          match parseStringBody r3 with
          | some (cs, r) => some (Char.ofNat (((a * 16 + b) * 16 + c2) * 16 + d) :: cs, r)
          | none => none
        | _, _, _, _ => none
      | e :: r2 =>
        match jEsc e with
        | some ch =>
          match parseStringBody r2 with
          | some (cs, r) => some (ch :: cs, r)
          | none => none
        | none => none
    else
      match parseStringBody rest with
      | some (cs, r) => some (c :: cs, r)
      | none => none

/-- Decimal digits to a natural number. -/
def digitsToNat (ds : List Char) : Nat :=
  ds.foldl (fun acc c => acc * 10 + (c.toNat - 48)) 0

/-- Parse a JSON integer numeral (the modelled numeric fragment):
optional minus sign, then digits; a following `.`, `e` or `E` is
outside the fragment and fails. -/
def parseJNum (s : List Char) : Option (Int × List Char) :=
  let (neg, s1) := match s with
    | '-' :: r => (true, r)
    | _ => (false, s)
  let ds := s1.takeWhile Char.isDigit
  let rest := s1.dropWhile Char.isDigit
  if ds.isEmpty then none
  else
    match rest with
    | '.' :: _ => none
    | 'e' :: _ => none
    | 'E' :: _ => none
    | _ =>
      let n : Int := Int.ofNat (digitsToNat ds)
      some (if neg then -n else n, rest)

mutual

/-- Parse one JSON value (model of `json.loads` on the fragment). -/
def parseJVal : Nat → List Char → Option (JVal × List Char)
  | 0, _ => none
  | fuel + 1, s0 =>
    match jskipWs s0 with
    | [] => none
    | c :: rest =>
      if c == '"' then
        match parseStringBody rest with
        | some (cs, r) => some (.jstr (String.mk cs), r)
        | none => none
      else if c == lbrace then
        match jskipWs rest with
        | d :: r2 =>
          if d == rbrace then some (.jobj [], r2)
          else
            match parseMembers fuel (d :: r2) with
            | some (ms, r) => some (.jobj ms, r)
            | none => none
        | [] => none
      else if c == 't' then
        match rest with
        | 'r' :: 'u' :: 'e' :: r => some (.jbool true, r)
        | _ => none
      else if c == 'f' then
        match rest with
        | 'a' :: 'l' :: 's' :: 'e' :: r => some (.jbool false, r)
        | _ => none
      else if c == 'n' then
        match rest with
        | 'u' :: 'l' :: 'l' :: r => some (.jnull, r)
        | _ => none
      else
        match parseJNum (c :: rest) with
        | some (n, r) => some (.jnum n, r)
        | none => none

/-- Parse the members of a JSON object, positioned at the first key;
consumes the closing brace. -/
def parseMembers : Nat → List Char → Option (List (String × JVal) × List Char)
  | 0, _ => none
  | fuel + 1, s0 =>
    match jskipWs s0 with
    | c :: rest =>
      if c == '"' then
        match parseStringBody rest with
        | some (kcs, r1) =>
          match jskipWs r1 with
          | ':' :: r2 =>
            match parseJVal fuel r2 with
            | some (v, r3) =>
              match jskipWs r3 with
              | ',' :: r4 =>
                match parseMembers fuel r4 with
                | some (ms, r5) => some ((String.mk kcs, v) :: ms, r5)
                | none => none
              | d :: r4 =>
                if d == rbrace then some ([(String.mk kcs, v)], r4) else none
              | [] => none
            | none => none
          | _ => none
        | none => none
      else none
    | [] => none

end

/-- Model of `json.loads` on a whole character list: parse one value and
require only whitespace to remain. -/
def jsonLoads (s : List Char) : Option JVal :=
  match parseJVal (s.length + 1) s with
  | some (v, rest) => if (jskipWs rest).isEmpty then some v else none
  | none => none

/-- Outcome of the `subprocess.run(["ollama", "run", ...])` invocation
inside `query_ollama_smart`: the captured stdout on a completed run, or
one of the two caught failure modes (`subprocess.TimeoutExpired`, any
other exception such as the `ollama` binary being absent). -/
inductive ModelOutcome where
  | success (stdout : String)
  | timeout
  | failure

/-- The literal string `query_ollama_smart` returns on every failure
path (src/command.py, line 535). -/
def ollamaFailedSentinel : String :=
  "\x7b\"tool\": \"general_chat\", \"parameters\": \x7b\"query\": \"AI model failed.\"\x7d\x7d"

/-- Embedding of `query_ollama_smart` (src/command.py, lines 507-535) as
a function of the model invocation's outcome: a completed run's stripped
stdout is returned when it is non-empty, free of the substring
`Error:`, and longer than 10 characters; every other path returns the
sentinel string. (The model-selection preamble and the caching of
generated code only affect state that is irrelevant to the returned
string.) -/
def query_ollama_smart (outcome : ModelOutcome) : String :=
  match outcome with
  | .success stdout =>
    let response := pyStrip stdout.toList
    if !response.isEmpty && !(pyContains ("Error:".toList) response) && response.length > 10 then
      String.mk response
    else
      ollamaFailedSentinel
  | .timeout => ollamaFailedSentinel
  | .failure => ollamaFailedSentinel

/-- The slice `response[start:end]` taken by `get_ai_intent`, where
`start = response.find(chr(123))` and `end = response.rfind(chr(125)) + 1`;
`none` when either brace is absent (the `start != -1 and end != 0`
test fails). -/
def braceSlice (s : List Char) : Option (List Char) :=
  match s.findIdx? (fun c => c == lbrace), s.reverse.findIdx? (fun c => c == rbrace) with
  | some i, some rj =>
    let j := s.length - 1 - rj
    some ((s.drop i).take (j + 1 - i))
  | _, _ => none

/-- A fallback-classifier intent rendered as the JSON object dictionary
shape `get_ai_intent` returns. -/
def intentToJVal (i : Intent) : JVal :=
  .jobj [("tool", .jstr i.tool),
         ("parameters", .jobj (i.params.map (fun p => (p.1, JVal.jstr p.2))))]

/-- Embedding of `get_ai_intent` (src/command.py, lines 537-586): run
the model, slice the response from its first opening to its last
closing brace, and parse that slice as JSON; a successful parse is
returned as-is, every other path (no braces, parse error) falls back to
`handle_fallback`. -/
def get_ai_intent (outcome : ModelOutcome) (text : String) : JVal :=
  let response := query_ollama_smart outcome
  match braceSlice response.toList with
  | some slice =>
    match jsonLoads slice with
    | some v => v
    | none => intentToJVal (handle_fallback text)
  | none => intentToJVal (handle_fallback text)

/-- Read a string field of a JSON object. -/
def jGetStr (v : JVal) (k : String) : Option String :=
  match v with
  | .jobj fields =>
    match jLookup fields k with
    | some (.jstr s) => some s
    | _ => none
  | _ => none

/-- Structural validity in the presence-only sense: the intent is a JSON
object whose `tool` is a string in the tool enumeration and whose
`parameters` object carries every parameter that tool requires. -/
def validIntentJ (v : JVal) : Bool :=
  match v with
  | .jobj fields =>
    match jLookup fields "tool" with
    | some (.jstr t) =>
      TOOLS.contains t &&
        (match jLookup fields "parameters" with
         | some (.jobj ps) => (requiredParams t).all (fun k => (jLookup ps k).isSome)
         | _ => (requiredParams t).isEmpty)
    | _ => false
  | _ => false

/-- Modelled from the spec: the spec's validity invariant for intents —
the tool is in the enumeration and every required parameter is present
with a non-empty string value.  Used to compare the spec's notion of
validity with what the dispatch code actually checks. -/
def specValidJ (v : JVal) : Bool :=
  match v with
  | .jobj fields =>
    match jLookup fields "tool" with
    | some (.jstr t) =>
      TOOLS.contains t &&
        (match jLookup fields "parameters" with
         | some (.jobj ps) =>
           (requiredParams t).all (fun k =>
             match jLookup ps k with
             | some (.jstr s) => s != ""
             | _ => false)
         | _ => false)
    | _ => false
  | _ => false

/-- What the dispatch pipeline decides to do with a classified intent. -/
inductive DispatchDecision where
  | notUnderstood
  | chatNotSure
  | execError
  | handlerCall (tool : String) (params : List (String × JVal))

/-- Embedding of the intent-validation and routing path through
`handle_command` (src/app.py, lines 203-246) and `execute_command`
(src/command.py, lines 984-1002): a non-dict intent or one without a
`tool` key triggers the "didn't understand" response in
`handle_command`; an unknown (or non-string) tool name routes to
`general_chat` with the "not sure what you mean" query; a known tool is
invoked with whatever `parameters` carries (absent defaults to the
empty dict, a non-dict value makes the `**parameters` expansion raise,
which the catch-all converts to the generic apology). -/
def dispatchPipeline (intent : JVal) : DispatchDecision :=
  match intent with
  | .jobj fields =>
    match jLookup fields "tool" with
    | none => .notUnderstood
    | some toolVal =>
      match toolVal with
      | .jstr t =>
        if TOOLS.contains t then
          match jLookup fields "parameters" with
          | some (.jobj ps) => .handlerCall t ps
          | none => .handlerCall t []
          | some _ => .execError
        else .chatNotSure
      | _ => .chatNotSure
  | _ => .notUnderstood

/-- The behavior of one tool-handler invocation as observed by
`execute_command`: the handler either runs to completion or raises,
and in both cases it may already have spoken some messages.  (Binding
failures of the `**parameters` expansion are the `raised` case with
nothing spoken.) -/
inductive HandlerOutcome where
  | completed (spoken : List String)
  | raised (spoken : List String) (err : String)

/-- The generic apology `execute_command` speaks from its catch-all
(src/command.py, lines 999-1002). -/
def genericErrorMsg (lang : String) : String :=
  if lang == "ta" then "Error aachu, mannichanga" else "Sorry, I had an error processing that"

/-- The `parameters['lang'] = lang` injection performed before the
handler call (every registered handler declares `lang`); keyword
arguments are order-insensitive, the existing `lang` entry, if any, is
overwritten. -/
def setLang (params : List (String × String)) (lang : String) : List (String × String) :=
  params.filter (fun p => p.1 != "lang") ++ [("lang", lang)]

/-- Which function `execute_command` invokes: the registered handler
when the tool name is a `TOOLS` key, otherwise `general_chat` with the
fixed "not sure" query. -/
def dispatchTarget (intent : Intent) : String :=
  if TOOLS.contains intent.tool then intent.tool else "general_chat"

/-- The keyword arguments of that invocation. -/
def dispatchArgs (intent : Intent) (lang : String) : List (String × String) :=
  if TOOLS.contains intent.tool then setLang intent.params lang
  else [("query", "I'm not sure what you mean"), ("lang", lang)]

/-- Embedding of `execute_command` (src/command.py, lines 984-1002),
parameterised by the handlers' behavior: the whole body runs under
`try`, and any exception is converted into the single generic apology;
the function is total — the caller never sees an exception. -/
def execute_command (intent : Intent) (lang : String)
    (handlers : String → List (String × String) → HandlerOutcome) : List String :=
  match handlers (dispatchTarget intent) (dispatchArgs intent lang) with
  | .completed spoken => spoken
  | .raised spoken _ => spoken ++ [genericErrorMsg lang]

/-- Spoken text of the `clipboard_action` handler's branches
(src/command.py, lines 748-833). -/
def clipboardNoCode (lang : String) : String :=
  if lang == "ta" then "Copy panna code illai" else "No code to copy"

/-- The "Code copied to clipboard" confirmation. -/
def clipboardCopied (lang : String) : String :=
  if lang == "ta" then "Code clipboard-la copy pannitten" else "Code copied to clipboard"

/-- The copy-paste path's "couldn't open the target app" apology. -/
def clipboardCouldntOpen (target lang : String) : String :=
  if lang == "ta" then target ++ " thorakka mudiyala" else "Couldn't open " ++ target

/-- The copy-paste path's "couldn't find the target app" apology. -/
def clipboardCouldntFind (target lang : String) : String :=
  if lang == "ta" then target ++ " kandupidikka mudiyala" else "Couldn't find " ++ target

/-- The copy-paste path's success confirmation. -/
def clipboardPastedCode (target lang : String) : String :=
  if lang == "ta" then "Code " ++ target ++ "-la paste pannitten" else "Code pasted in " ++ target

/-- The paste path's success confirmation. -/
def clipboardPasted (target lang : String) : String :=
  if lang == "ta" then target ++ "-la paste pannitten" else "Pasted in " ++ target

/-- Embedding of the `clipboard_action` handler (src/command.py, lines
748-833) as the list of messages it speaks, as a function of its
preconditions: `hasCode` is the truthiness of
`ai_config.last_generated_code`, `appFound` whether
`app_discovery.find_app(target_app)` returned a path, `launchOk` the
result of `app_discovery.launch_app`.  The clipboard and keystroke
primitives themselves are modelled as succeeding (their own exceptions
are absorbed by the handler's catch-all, which is not a missing
precondition). -/
def clipboard_action (action target_app : String)
    (hasCode appFound launchOk : Bool) (lang : String) : List String :=
  if action == "copy_paste" then
    if hasCode then
      clipboardCopied lang ::
        (if appFound then
           (if launchOk then [clipboardPastedCode target_app lang]
            else [clipboardCouldntOpen target_app lang])
         else [clipboardCouldntFind target_app lang])
    else [clipboardNoCode lang]
  else if action == "paste" then
    if appFound then
      (if launchOk then [clipboardPasted target_app lang] else [])
    else []
  else if action == "copy" then
    if hasCode then [clipboardCopied lang] else [clipboardNoCode lang]
  else []

/-- A character of the `\w` class of Python's `re` module, restricted to
ASCII as elsewhere in this embedding. -/
def wordChar (c : Char) : Bool := c.isAlphanum || c == '_'

/-- Is this position a `\b` boundary, given the preceding character
(`none` at the start of the text). -/
def boundaryBefore : Option Char → Bool
  | none => true
  | some c => !(wordChar c)

/-- Is the position after a match a `\b` boundary. -/
def boundaryAfter : List Char → Bool
  | [] => true
  | c :: _ => !(wordChar c)

/-- Consume an exact literal, returning the remainder. -/
def dropLit : List Char → List Char → Option (List Char)
  | [], s => some s
  | _ :: _, [] => none
  | a :: wr, b :: sr => if a == b then dropLit wr sr else none

/-- `re.search` scanning: try the position matcher at every suffix,
tracking the preceding character for boundary tests. -/
def scanPat (m : Option Char → List Char → Bool) : Option Char → List Char → Bool
  | prev, [] => m prev []
  | prev, c :: rest => m prev (c :: rest) || scanPat m (some c) rest

/-- Match one of the alternative literals followed by a `\b` boundary. -/
def matchAltBounded (alts : List String) (s : List Char) : Bool :=
  alts.any (fun w =>
    match dropLit w.toList s with
    | some rest => boundaryAfter rest
    | none => false)

/-- Position matcher for `\b(alt|...)\b`. -/
def matchWordAlts (alts : List String) (prev : Option Char) (s : List Char) : Bool :=
  boundaryBefore prev && matchAltBounded alts s

/-- Position matcher for `\bhey\s+(alt|...)\b`: since the alternatives
start with non-whitespace letters, greedy whitespace consumption is
exact. -/
def matchHeyAlts (alts : List String) (prev : Option Char) (s : List Char) : Bool :=
  boundaryBefore prev &&
    (match dropLit ("hey".toList) s with
     | some (c :: rest) =>
       isPyWs c && matchAltBounded alts ((c :: rest).dropWhile isPyWs)
     | _ => false)

/-- Position matcher for `\bverb\s+\w+` (the `open`/`close` command
shapes). -/
def matchVerbObj (verb : String) (prev : Option Char) (s : List Char) : Bool :=
  boundaryBefore prev &&
    (match dropLit verb.toList s with
     | some (c :: rest) =>
       isPyWs c &&
         (match (c :: rest).dropWhile isPyWs with
          | d :: _ => wordChar d
          | [] => false)
     | _ => false)

/-- Position matcher for `\bverb\s+` (the `search` command shape). -/
def matchVerbWs (verb : String) (prev : Option Char) (s : List Char) : Bool :=
  boundaryBefore prev &&
    (match dropLit verb.toList s with
     | some (c :: _) => isPyWs c
     | _ => false)

/-- Position matcher for `\w+\s+lit` (the Tamil `app_name + particle`
shapes); greedy consumption of the word run and the whitespace run is
exact because they draw from disjoint character classes. -/
def matchWordThenLit (lit : String) (_prev : Option Char) (s : List Char) : Bool :=
  match s with
  | [] => false
  | c :: _ =>
    wordChar c &&
      (match s.dropWhile wordChar with
       | d :: rest2 =>
         isPyWs d && (dropLit lit.toList ((d :: rest2).dropWhile isPyWs)).isSome
       | [] => false)

/-- The configured wake phrases (`AppState.wake_words`, src/app.py,
lines 47-50). -/
def wake_words : List String :=
  ["pluto", "ghost", "hey pluto", "hey ghost", "pluto anna", "ghost anna"]

/-- Embedding of `detect_wake_word` (src/app.py, lines 55-78): lower
and strip the text, test substring containment of each wake phrase,
then the three fuzzy word-bounded regular expressions. -/
def detect_wake_word (text : String) : Bool :=
  if text == "" then false
  else
    let tl := pyStrip (pyLower text.toList)
    wake_words.any (fun w => pyContains w.toList tl)
      || scanPat (matchWordAlts ["pluto", "bluto", "puto"]) none tl
      || scanPat (matchWordAlts ["ghost", "gost", "goast"]) none tl
      || scanPat (matchHeyAlts ["pluto", "ghost"]) none tl

/-- Embedding of `is_direct_command` (src/app.py, lines 80-99): the six
command-shape regular expressions searched over the lowered (not
stripped) text. -/
def is_direct_command (text : String) : Bool :=
  if text == "" then false
  else
    let tl := pyLower text.toList
    scanPat (matchVerbObj "open") none tl
      || scanPat (matchVerbObj "close") none tl
      || scanPat (matchVerbWs "search") none tl
      || scanPat (matchWordThenLit "thorakku") none tl
      || scanPat (matchWordThenLit "muddu") none tl
      || scanPat (matchWordThenLit "pannu") none tl

/-- The decision the continuous listener takes for one captured
utterance. -/
inductive LoopAction where
  | wakeFollowup
  | dispatchDirect (text : String)
  | ignore
deriving DecidableEq

/-- Embedding of the branch structure of `continuous_listener`
(src/app.py, lines 150-196) on a non-empty capture: the wake-word test
runs first; only its `elif` dispatches the original utterance. -/
def loopClassify (text : String) : LoopAction :=
  if detect_wake_word text then .wakeFollowup
  else if is_direct_command text then .dispatchDirect text
  else .ignore

/-- Embedding of the second-capture guard in the wake path of
`continuous_listener` (src/app.py, line 173): the captured command is
dispatched iff `command_text` is truthy and its stripped form is longer
than 2 characters. -/
def secondCaptureDispatches (commandText : String) : Bool :=
  commandText != "" && decide ((pyStrip commandText.toList).length > 2)

/-- Modelled from the spec: the spec's notion of a non-trivial second
capture — "more than 2 non-space characters" — used to compare the
spec's guard with the code's. -/
def specNonTrivial (s : String) : Bool :=
  decide ((s.toList.filter (fun c => c != ' ')).length > 2)

/-! ## Helper lemmas -/

/-- The fallback classifier's result, rendered as a JSON dictionary, is
always structurally valid in the presence sense: every branch of
`handle_fallback` constructs the parameter keys its tool requires. -/
theorem handle_fallback_validJ (text : String) :
    validIntentJ (intentToJVal (handle_fallback text)) = true := by
  unfold handle_fallback
  dsimp only
  repeat' split
  all_goals rfl

/-- Cancel a common concrete suffix of a string equation, at the level
of character data. -/
theorem string_append_right_inj {a b : String} (t : String) (h : a ++ t = b ++ t)
    (hl : a.data.length = b.data.length) : a.data = b.data := by
  have h2 : a.data ++ t.data = b.data ++ t.data := congrArg String.data h
  exact (List.append_inj h2 hl).1

/-- Cancel a common (possibly variable) prefix of a string equation, at
the level of character data. -/
theorem string_append_left_inj {a b : String} (t : String) (h : t ++ a = t ++ b) :
    a.data = b.data := by
  have h2 : t.data ++ a.data = t.data ++ b.data := congrArg String.data h
  exact (List.append_inj h2 rfl).2

/-! ## Claim theorems -/

/-- C1 (counterexample): the claim is false on the code.  For the input
"open chrome" with the model invocation failing (timeout; the
model-unavailable and invocation-error cases take the identical path),
`get_ai_intent` returns the parsed sentinel — a `general_chat` intent
with query "AI model failed." — whereas `handle_fallback` on the same
text produces the `open_app`/chrome intent; the two differ. -/
theorem get_ai_intent_failure_not_fallback :
    jGetStr (get_ai_intent ModelOutcome.timeout "open chrome") "tool" = some "general_chat"
    ∧ handle_fallback "open chrome" = ⟨"open_app", [("app_name", "chrome")]⟩
    ∧ get_ai_intent ModelOutcome.timeout "open chrome"
        ≠ intentToJVal (handle_fallback "open chrome") := by
  refine ⟨rfl, by decide, fun h => ?_⟩
  have h2 := congrArg (fun v => jGetStr v "tool") h
  exact absurd h2 (by decide)

/-- C1 (amended): when the model invocation fails (timeout or any other
invocation error, including no model being available), `get_ai_intent`
does not reach `handle_fallback`: `query_ollama_smart` substitutes a
sentinel JSON string which parses successfully, so the returned intent
is the fixed `general_chat` intent with query "AI model failed.",
independent of the input text.  The deterministic fallback is reached
only when a completed model response contains no parseable JSON
object. -/
theorem get_ai_intent_failure_is_sentinel (text : String) :
    get_ai_intent ModelOutcome.timeout text
      = JVal.jobj [("tool", .jstr "general_chat"),
                   ("parameters", .jobj [("query", .jstr "AI model failed.")])]
    ∧ get_ai_intent ModelOutcome.failure text
      = JVal.jobj [("tool", .jstr "general_chat"),
                   ("parameters", .jobj [("query", .jstr "AI model failed.")])] :=
  ⟨rfl, rfl⟩

/-- C2 (counterexample): the claim is false on the code.  A model
response that is a parseable JSON object is returned by `get_ai_intent`
without validation: for the response consisting of a JSON object whose
only field maps "tool" to "bogus_tool" (long enough to pass the length
filter), the returned intent's tool is "bogus_tool", which is not in
the tool enumeration, so the result is not structurally valid. -/
theorem get_ai_intent_unvalidated_tool :
    jGetStr (get_ai_intent
      (ModelOutcome.success "\x7b\"tool\": \"bogus_tool\"\x7d") "open chrome") "tool"
      = some "bogus_tool"
    ∧ validIntentJ (get_ai_intent
        (ModelOutcome.success "\x7b\"tool\": \"bogus_tool\"\x7d") "open chrome") = false :=
  ⟨rfl, rfl⟩

/-- C2 (amended): `get_ai_intent` is total (the embedding is a function;
every Python exception path is caught and routed to the fallback), and
its result is either the JSON object parsed out of the model response —
returned as-is, with no guarantee that the tool is in the enumeration
or that required parameters are present — or `handle_fallback text`,
which is always structurally valid (tool in the enumeration, every
required parameter present). -/
theorem get_ai_intent_parse_or_fallback (text : String) (outcome : ModelOutcome) :
    (∃ slice v, braceSlice (query_ollama_smart outcome).toList = some slice
        ∧ jsonLoads slice = some v
        ∧ get_ai_intent outcome text = v)
    ∨ (get_ai_intent outcome text = intentToJVal (handle_fallback text)
        ∧ validIntentJ (intentToJVal (handle_fallback text)) = true) := by
  cases hb : braceSlice (query_ollama_smart outcome).toList with
  | none =>
    refine Or.inr ⟨?_, handle_fallback_validJ text⟩
    simp only [get_ai_intent, hb]
  | some slice =>
    cases hj : jsonLoads slice with
    | none =>
      refine Or.inr ⟨?_, handle_fallback_validJ text⟩
      simp only [get_ai_intent, hb, hj]
    | some v =>
      refine Or.inl ⟨slice, v, by simp only [hb], by simp only [hj], ?_⟩
      simp only [get_ai_intent, hb, hj]

/-- C3 (counterexample): the claim is false on the code.  The intent
with tool `open_app` and an empty `app_name` is invalid under the
spec's invariant (required parameter present but empty), yet the
dispatch pipeline invokes the `open_app` handler with it instead of
producing a "command not understood" response. -/
theorem dispatch_empty_param_reaches_handler :
    specValidJ (JVal.jobj [("tool", .jstr "open_app"),
        ("parameters", .jobj [("app_name", .jstr "")])]) = false
    ∧ dispatchPipeline (JVal.jobj [("tool", .jstr "open_app"),
        ("parameters", .jobj [("app_name", .jstr "")])])
      = .handlerCall "open_app" [("app_name", JVal.jstr "")] :=
  ⟨rfl, rfl⟩

/-- C3 (amended): validation before dispatch checks only the tool: a
non-dict intent or one without a `tool` key gets the "didn't
understand" response, an unknown tool name is routed to `general_chat`
with the "not sure what you mean" query, and consequently every intent
whose handler is invoked has its tool in the `TOOLS` enumeration — but
presence and non-emptiness of required parameters are never checked, so
intents invalid only in their parameters are still dispatched to the
handler. -/
theorem dispatch_handler_tool_known (v : JVal) (t : String)
    (ps : List (String × JVal)) (h : dispatchPipeline v = .handlerCall t ps) :
    TOOLS.contains t = true := by
  cases v with
  | jobj fields =>
    simp only [dispatchPipeline] at h
    repeat' split at h
    all_goals first
      | exact DispatchDecision.noConfusion h
      | (cases h; assumption)
  | jnull => exact DispatchDecision.noConfusion h
  | jbool b => exact DispatchDecision.noConfusion h
  | jnum n => exact DispatchDecision.noConfusion h
  | jstr s => exact DispatchDecision.noConfusion h

/-- Witness for C3's amended theorem at a concrete intent: dispatching
the valid `open_app`/chrome intent invokes a handler whose tool the
theorem certifies to be in the enumeration. -/
theorem dispatch_handler_tool_known_witness : TOOLS.contains "open_app" = true :=
  dispatch_handler_tool_known
    (JVal.jobj [("tool", .jstr "open_app"),
        ("parameters", .jobj [("app_name", .jstr "chrome")])])
    "open_app" [("app_name", JVal.jstr "chrome")] rfl

/-- Length of an appended string, at the level of character data. -/
theorem string_length_append (a b : String) : (a ++ b).length = a.length + b.length := by
  cases a with
  | mk l1 =>
    cases b with
    | mk l2 =>
      show (l1 ++ l2).length = l1.length + l2.length
      exact List.length_append l1 l2

/-- C4 (counterexample): the claim is false on the code.  In the
`paste` branch of `clipboard_action`, the app-not-found precondition
fails silently: with cached code present, the target app unresolved and
the launch primitive healthy, the handler speaks nothing at all. -/
theorem clipboard_paste_app_missing_silent :
    clipboard_action "paste" "notepad" true false true "en" = ([] : List String) := by
  decide

/-- C4 (amended): failure reporting in `clipboard_action` is
per-branch.  For `copy_paste`, each missing precondition (no cached
code, target app not found, app launch failed) yields exactly one
spoken message in the active language, and the three apologies are
pairwise distinct; for `copy`, the missing-code precondition yields its
apology; but for `paste`, the app-not-found and launch-failed paths are
silent — they produce no spoken response. -/
theorem clipboard_action_failure_messages (target lang : String) (af lo : Bool) :
    clipboard_action "copy_paste" target false af lo lang = [clipboardNoCode lang]
    ∧ clipboard_action "copy_paste" target true false lo lang
        = [clipboardCopied lang, clipboardCouldntFind target lang]
    ∧ clipboard_action "copy_paste" target true true false lang
        = [clipboardCopied lang, clipboardCouldntOpen target lang]
    ∧ clipboard_action "copy" target false af lo lang = [clipboardNoCode lang]
    ∧ clipboardNoCode lang ≠ clipboardCouldntFind target lang
    ∧ clipboardNoCode lang ≠ clipboardCouldntOpen target lang
    ∧ clipboardCouldntFind target lang ≠ clipboardCouldntOpen target lang
    ∧ clipboard_action "paste" target af false lo lang = []
    ∧ clipboard_action "paste" target af true false lang = [] := by
  refine ⟨rfl, rfl, rfl, rfl, ?_, ?_, ?_, rfl, rfl⟩
  · rcases eq_or_ne lang "ta" with hl | hl
    · subst hl
      show "Copy panna code illai" ≠ target ++ " kandupidikka mudiyala"
      intro he
      have h2 := congrArg String.length he
      rw [string_length_append] at h2
      have h3 : "Copy panna code illai".length = 21 := rfl
      have h4 : (" kandupidikka mudiyala" : String).length = 22 := rfl
      rw [h3, h4] at h2
      omega
    · have hb : (lang == "ta") = false := beq_eq_false_iff_ne.mpr hl
      simp only [clipboardNoCode, clipboardCouldntFind, hb, Bool.false_eq_true, if_false]
      intro he
      have h2 : ("No code to copy" : String).data.head?
          = ("Couldn't find " ++ target : String).data.head? :=
        congrArg (fun s => s.data.head?) he
      have hC : ("Couldn't find " ++ target : String).data.head? = some 'C' := rfl
      rw [hC] at h2
      exact absurd h2 (by decide)
  · rcases eq_or_ne lang "ta" with hl | hl
    · subst hl
      show "Copy panna code illai" ≠ target ++ " thorakka mudiyala"
      intro he
      have h2 : ("Copy panna code illai" : String).data
          = target.data ++ (" thorakka mudiyala" : String).data := congrArg String.data he
      have h3 := congrArg List.reverse h2
      rw [List.reverse_append] at h3
      have h4 := congrArg List.head? h3
      have hA : ((" thorakka mudiyala" : String).data.reverse ++ target.data.reverse).head?
          = some 'a' := rfl
      rw [hA] at h4
      exact absurd h4 (by decide)
    · have hb : (lang == "ta") = false := beq_eq_false_iff_ne.mpr hl
      simp only [clipboardNoCode, clipboardCouldntOpen, hb, Bool.false_eq_true, if_false]
      intro he
      have h2 : ("No code to copy" : String).data.head?
          = ("Couldn't open " ++ target : String).data.head? :=
        congrArg (fun s => s.data.head?) he
      have hC : ("Couldn't open " ++ target : String).data.head? = some 'C' := rfl
      rw [hC] at h2
      exact absurd h2 (by decide)
  · rcases eq_or_ne lang "ta" with hl | hl
    · subst hl
      show target ++ " kandupidikka mudiyala" ≠ target ++ " thorakka mudiyala"
      intro he
      exact absurd (string_append_left_inj target he) (by decide)
    · have hb : (lang == "ta") = false := beq_eq_false_iff_ne.mpr hl
      simp only [clipboardCouldntFind, clipboardCouldntOpen, hb, Bool.false_eq_true, if_false]
      intro he
      exact absurd (string_append_right_inj target he rfl) (by decide)

/-- C5 (confirmed): `execute_command`'s whole body runs inside a
catch-all, so the embedding is a total function — for every intent,
language and handler behavior it returns a message list without
raising; and when the invoked handler raises (after any messages of its
own), the dispatcher appends exactly one generic apology in the active
language. -/
theorem execute_command_catches_handler_exception (intent : Intent) (lang : String)
    (handlers : String → List (String × String) → HandlerOutcome)
    (spoken : List String) (err : String)
    (h : handlers (dispatchTarget intent) (dispatchArgs intent lang)
        = HandlerOutcome.raised spoken err) :
    execute_command intent lang handlers = spoken ++ [genericErrorMsg lang] := by
  unfold execute_command
  rw [h]

/-- Witness for C5's theorem: a handler forced to throw on the
`open_app`/chrome intent makes the dispatcher return exactly the one
generic English apology. -/
theorem execute_command_catches_handler_exception_witness :
    execute_command ⟨"open_app", [("app_name", "chrome")]⟩ "en"
        (fun _ _ => HandlerOutcome.raised [] "boom")
      = [] ++ [genericErrorMsg "en"] :=
  execute_command_catches_handler_exception
    ⟨"open_app", [("app_name", "chrome")]⟩ "en"
    (fun _ _ => HandlerOutcome.raised [] "boom") [] "boom" rfl

/-- C6 (confirmed): the media rule is the first rule of
`handle_fallback`, so any text containing a media keyword — in
particular any text containing both a media keyword and a
system-control keyword — is classified `play_media`, never
`system_control`. -/
theorem handle_fallback_media_before_system (text : String)
    (hm : anyWord (pyLower text.toList) mediaWords = true)
    (_hs : anyWord (pyLower text.toList) systemWords = true) :
    (handle_fallback text).tool = "play_media"
    ∧ (handle_fallback text).tool ≠ "system_control" := by
  have h1 : (handle_fallback text).tool = "play_media" := by
    unfold handle_fallback
    dsimp only
    rw [if_pos hm]
  exact ⟨h1, by rw [h1]; decide⟩

/-- Witness for C6's theorem at "play shutdown song": it contains both
the media keyword "play" and the system keyword "shutdown", and is
classified `play_media`. -/
theorem handle_fallback_media_before_system_witness :
    anyWord (pyLower ("play shutdown song".toList)) mediaWords = true
    ∧ anyWord (pyLower ("play shutdown song".toList)) systemWords = true
    ∧ (handle_fallback "play shutdown song").tool = "play_media" :=
  ⟨by decide, by decide,
    (handle_fallback_media_before_system "play shutdown song" (by decide) (by decide)).1⟩

/-- C7 (confirmed): wake detection lowers and strips its input before
the substring and fuzzy tests, so "  PLUTO  ", "pluto" and
"Pluto anna" all wake, while "platoon" — which contains no wake phrase
as a substring and matches no word-bounded fuzzy pattern — does not. -/
theorem detect_wake_word_cases :
    detect_wake_word "  PLUTO  " = true
    ∧ detect_wake_word "pluto" = true
    ∧ detect_wake_word "Pluto anna" = true
    ∧ detect_wake_word "platoon" = false := by
  decide

/-- C8 (counterexample): the claim is false on the code.  The second
capture "a b" has only 2 non-space characters — trivial under the
claim's definition — yet the loop dispatches it, because the code's
guard is on the trimmed length (3 here), not on the count of non-space
characters. -/
theorem second_capture_a_b_dispatched :
    secondCaptureDispatches "a b" = true ∧ specNonTrivial "a b" = false := by
  decide

/-- C8 (amended): after a wake acknowledgment, the second captured
utterance is dispatched iff its stripped form is longer than 2
characters (interior spaces count); the separate truthiness test on the
raw string is subsumed by that bound. -/
theorem second_capture_dispatch_iff_strip_length (s : String) :
    secondCaptureDispatches s = true ↔ (pyStrip s.toList).length > 2 := by
  unfold secondCaptureDispatches
  rw [Bool.and_eq_true, decide_eq_true_eq]
  constructor
  · exact fun h => h.2
  · intro h
    refine ⟨?_, h⟩
    rw [bne_iff_ne]
    intro hs
    subst hs
    simp [pyStrip] at h

/-- C9 (confirmed): in the listener's branch structure the wake-word
test runs first, so an utterance on which both `detect_wake_word` and
`is_direct_command` hold takes the wake path; the utterance itself is
never dispatched as a direct command. -/
theorem wake_precedence_over_direct (text : String)
    (hw : detect_wake_word text = true) (_hd : is_direct_command text = true) :
    loopClassify text = LoopAction.wakeFollowup
    ∧ ∀ t, loopClassify text ≠ LoopAction.dispatchDirect t := by
  have h1 : loopClassify text = LoopAction.wakeFollowup := by
    unfold loopClassify
    rw [if_pos hw]
  refine ⟨h1, fun t ht => ?_⟩
  rw [h1] at ht
  exact LoopAction.noConfusion ht

/-- Witness for C9's theorem at "open pluto": it both wakes (contains
"pluto") and matches the direct-command shape (`open` + word), and the
loop takes the wake path. -/
theorem wake_precedence_over_direct_witness :
    detect_wake_word "open pluto" = true
    ∧ is_direct_command "open pluto" = true
    ∧ loopClassify "open pluto" = LoopAction.wakeFollowup :=
  ⟨by decide, by decide,
    (wake_precedence_over_direct "open pluto" (by decide) (by decide)).1⟩

/-- C10 (confirmed): the fallback's keyword tests are raw substring
containment, so any text whose lowercase form contains "play" — even
only inside another word — fires the first (media) rule and is
classified `play_media`, not `open_app`. -/
theorem handle_fallback_play_substring_media (text : String)
    (h : pyContains ("play".toList) (pyLower text.toList) = true) :
    (handle_fallback text).tool = "play_media"
    ∧ (handle_fallback text).tool ≠ "open_app" := by
  have hm : anyWord (pyLower text.toList) mediaWords = true := by
    unfold anyWord
    rw [List.any_eq_true]
    exact ⟨"play", by decide, h⟩
  have h1 : (handle_fallback text).tool = "play_media" := by
    unfold handle_fallback
    dsimp only
    rw [if_pos hm]
  exact ⟨h1, by rw [h1]; decide⟩

/-- Witness for C10's theorem at "open display settings": "display"
contains "play", and the text is classified `play_media` despite its
opening verb. -/
theorem handle_fallback_play_substring_media_witness :
    pyContains ("play".toList) (pyLower ("open display settings".toList)) = true
    ∧ (handle_fallback "open display settings").tool = "play_media" :=
  ⟨by decide,
    (handle_fallback_play_substring_media "open display settings" (by decide)).1⟩

end PlutoAI
